import Mathlib

/-!
Verification development for a storefront web application consisting of two
route modules: an account-orders route (loader, orders view, GraphQL
fragments) and a collection template (product grid).  The definitions below
are a shallow embedding of the TypeScript source; theorems establish the
behavioural properties of the loader (authentication gating, error mapping,
query construction), the views (empty-state, eager-loading markers, order
links) and the static GraphQL fragment data.
-/

/-! ## Data model: orders route -/

/-- A money value as returned by the storefront API (`MoneyV2`). -/
structure MoneyV2 where
  amount : String
  currencyCode : String
deriving Repr, DecidableEq

/-- One order node of the orders connection, with the fields requested by
`ORDER_ITEM_FRAGMENT`. -/
structure Order where
  id : String
  orderNumber : Nat
  processedAt : String
  financialStatus : String
  fulfillmentStatus : String
  currentTotalPrice : MoneyV2
deriving Repr, DecidableEq

/-- The page-info object of the orders connection, holding the fields the
fragment actually requests. -/
structure PageInfo where
  hasPreviousPage : Bool
  hasNextPage : Bool
  endCursor : Option String
deriving Repr, DecidableEq

/-- The paginated orders connection: nodes plus page info. -/
structure OrdersConnection where
  nodes : List Order
  pageInfo : PageInfo
deriving Repr, DecidableEq

/-- The customer record of `CUSTOMER_FRAGMENT`: total order count plus one
page of orders. -/
structure Customer where
  numberOfOrders : Nat
  orders : OrdersConnection
deriving Repr, DecidableEq

/-! ## Session and authentication -/

/-- The object stored in the session under the key `customerAccessToken`:
its `accessToken` field may be absent. -/
structure CustomerAccessToken where
  accessToken : Option String
deriving Repr, DecidableEq

/-- The request session: `session.get 'customerAccessToken'` may return
nothing. -/
structure Session where
  customerAccessToken : Option CustomerAccessToken
deriving Repr, DecidableEq

/-- JavaScript truthiness of the optional chain
`customerAccessToken?.accessToken`: the token is usable when the stored
object exists, its `accessToken` field exists, and the string is non-empty
(the empty string is falsy in JavaScript). -/
def tokenPresent (s : Session) : Option String :=
  match s.customerAccessToken with
  | none => none
  | some t =>
    match t.accessToken with
    | none => none
    | some a => if a = "" then none else some a

/-! ## Request, locale and pagination variables -/

/-- An incoming request, carrying its query-string parameters. -/
structure Request where
  searchParams : List (String × String)
deriving Repr, DecidableEq

/-- Look up a query-string parameter (`searchParams.get`). -/
def getParam (r : Request) (key : String) : Option String :=
  (r.searchParams.find? (fun p => p.1 = key)).map (fun p => p.2)

/-- The i18n context used to localize application paths. -/
structure I18n where
  locale : String
deriving Repr, DecidableEq

/-- The storefront client's locale scope (`storefront.i18n`). -/
structure StorefrontI18n where
  country : String
  language : String
deriving Repr, DecidableEq

/-- Modelled from the spec: `localizePath` (imported from `~/utils`, not
part of the provided sources) returns the locale-localized form of the given
application path. -/
def localizePath (path : String) (i18n : I18n) : String :=
  if i18n.locale = "" then path else "/" ++ i18n.locale ++ path

/-- The pagination variables handed to the GraphQL query. -/
structure PaginationVariables where
  first : Option Nat
  last : Option Nat
  startCursor : Option String
  endCursor : Option String
deriving Repr, DecidableEq

/-- Modelled from the spec: `getPaginationVariables` (owned by the external
SDK) builds pagination variables from the request's query string at a fixed
page size, echoing the cursor value verbatim: a backward navigation yields
`last`/`startCursor`, any other yields `first`/`endCursor`. -/
def getPaginationVariables (r : Request) (pageBy : Nat) : PaginationVariables :=
  let cursor := getParam r "cursor"
  if getParam r "direction" = some "previous" then
    { first := none, last := some pageBy, startCursor := cursor, endCursor := none }
  else
    { first := some pageBy, last := none, startCursor := none, endCursor := cursor }

/-! ## The outbound query -/

/-- The static GraphQL documents this application can send. -/
inductive QueryDocument
  | customerOrders
deriving Repr, DecidableEq

/-- The variables of `CUSTOMER_ORDERS_QUERY`. -/
structure QueryVariables where
  customerAccessToken : String
  country : String
  language : String
  first : Option Nat
  last : Option Nat
  startCursor : Option String
  endCursor : Option String
deriving Repr, DecidableEq

/-- One outbound call to `storefront.query`: the document, its variables and
whether cache-bypassing semantics (`CacheNone`) were requested. -/
structure QueryCall where
  document : QueryDocument
  vars : QueryVariables
  cacheNone : Bool
deriving Repr, DecidableEq

/-- A JavaScript value thrown by the query, when it is not an `Error`
instance. -/
inductive JsValue
  | str (s : String)
  | num (n : Int)
  | boolean (b : Bool)
  | null
deriving Repr, DecidableEq

/-- A thrown value: either an `Error` instance (carrying its message) or any
other value. -/
inductive Thrown
  | errorVal (message : String)
  | nonError (v : JsValue)
deriving Repr, DecidableEq

/-- The behaviour of the single remote query: it either resolves (possibly
with no customer) or throws. -/
inductive QueryOutcome
  | ok (customer : Option Customer)
  | thrown (e : Thrown)
deriving Repr, DecidableEq

/-! ## The loader -/

/-- The body of a JSON response produced by the loader. -/
inductive JsonBody
  | customerBody (c : Customer)
  | errMsg (message : String)
  | errVal (v : JsValue)
deriving Repr, DecidableEq

/-- The loader's result: a redirect, or a JSON response with a status. -/
inductive LoaderResult
  | redirect (location : String)
  | json (body : JsonBody) (status : Nat)
deriving Repr, DecidableEq

/-- The request-scoped context of the loader: session, locale contexts, and
the behaviour of the remote storefront on this request's single query. -/
structure LoaderContext where
  session : Session
  i18n : I18n
  sfI18n : StorefrontI18n
  queryOutcome : QueryOutcome
deriving Repr, DecidableEq

/-- The `try` body after the query resolves: a missing customer is escalated
by `throw new Error('Customer not found')`, a present customer is returned. -/
def tryBody (outcome : QueryOutcome) : Except Thrown Customer :=
  match outcome with
  | .thrown e => .error e
  | .ok none => .error (.errorVal "Customer not found")
  | .ok (some c) => .ok c

/-- The `catch` handler: an `Error` instance maps to a 400 JSON body carrying
its message; any other thrown value is passed through unchanged. -/
def catchHandler (e : Thrown) : LoaderResult :=
  match e with
  | .errorVal msg => .json (.errMsg msg) 400
  | .nonError v => .json (.errVal v) 400

/-- The variables the loader passes to `storefront.query`: the session's
access token, the locale's country and language, and the spread pagination
variables. -/
def buildVariables (accessToken : String) (sf : StorefrontI18n)
    (pv : PaginationVariables) : QueryVariables :=
  { customerAccessToken := accessToken
    country := sf.country
    language := sf.language
    first := pv.first
    last := pv.last
    startCursor := pv.startCursor
    endCursor := pv.endCursor }

/-- The orders-route loader.  It returns its result together with the list
of outbound query calls it issued. -/
def loader (request : Request) (ctx : LoaderContext) :
    LoaderResult × List QueryCall :=
  match tokenPresent ctx.session with
  | none => (.redirect (localizePath "/account/login" ctx.i18n), [])
  | some accessToken =>
    let pv := getPaginationVariables request 20
    let call : QueryCall :=
      { document := .customerOrders
        vars := buildVariables accessToken ctx.sfI18n pv
        cacheNone := true }
    match tryBody ctx.queryOutcome with
    | .error e => (catchHandler e, [call])
    | .ok c => (.json (.customerBody c) 200, [call])

/-! ## Orders view -/

/-- What the body of the `Orders` component renders below the heading:
either the orders table or the empty-state fallback. -/
inductive OrdersViewBody
  | table (orders : OrdersConnection)
  | emptyState
deriving Repr, DecidableEq

/-- The `Orders` component's choice between the table and the empty-state
fallback: `orders.nodes.length ? <OrdersTable/> : <EmptyOrders/>`. -/
def ordersViewBody (customer : Customer) : OrdersViewBody :=
  if customer.orders.nodes.length ≠ 0 then .table customer.orders
  else .emptyState

/-! ## Order-item links and `btoa` -/

/-- The base64 alphabet, indexed 0..63. -/
def base64Alphabet : List Char :=
  "ABCDEFGHIJKLMNOPQRSTUVWXYZabcdefghijklmnopqrstuvwxyz0123456789+/".toList

/-- The base64 digit for a 6-bit group. -/
def base64Char (n : Nat) : Char :=
  base64Alphabet.getD n 'A'

/-- Standard base64 encoding of a byte sequence, with `=` padding. -/
def base64EncodeBytes : List Nat → List Char
  | [] => []
  | [b1] =>
    [base64Char (b1 / 4), base64Char (b1 % 4 * 16), '=', '=']
  | [b1, b2] =>
    [base64Char (b1 / 4), base64Char (b1 % 4 * 16 + b2 / 16),
     base64Char (b2 % 16 * 4), '=']
  | b1 :: b2 :: b3 :: rest =>
    base64Char (b1 / 4) :: base64Char (b1 % 4 * 16 + b2 / 16) ::
    base64Char (b2 % 16 * 4 + b3 / 64) :: base64Char (b3 % 64) ::
    base64EncodeBytes rest

/-- JavaScript `btoa`: base64-encode the string's code units as bytes (the
identifiers encoded here are ASCII, so each code unit is one byte). -/
def btoa (s : String) : String :=
  String.mk (base64EncodeBytes (s.toList.map Char.toNat))

/-- A rendered navigation link: its target path and its visible label. -/
structure RenderedLink where
  href : String
  label : String
deriving Repr, DecidableEq

/-- The links rendered by `OrderItem` for one order row: the order-number
link targets the raw identifier, the `View Order` link targets the
base64-encoded identifier. -/
def orderItemLinks (order : Order) : List RenderedLink :=
  [ { href := "/account/orders/" ++ order.id
      label := "#" ++ toString order.orderNumber },
    { href := "/account/orders/" ++ btoa order.id
      label := "View Order →" } ]

/-! ## Static fragment data: the pageInfo selection of `CUSTOMER_FRAGMENT` -/

/-- The field names requested inside `pageInfo` by `CUSTOMER_FRAGMENT`,
transcribed in source order. -/
def customerFragmentPageInfoFields : List String :=
  ["hasPreviousPage", "hasNextPage", "hasNextPage", "endCursor"]

/-- The argument list of the `orders` field in `CUSTOMER_FRAGMENT`: the
pagination variables are forwarded verbatim into `first`/`last` and the
`before`/`after` cursor arguments. -/
structure OrdersFieldArguments where
  sortKey : String
  reverse : Bool
  first : Option Nat
  last : Option Nat
  before : Option String
  after : Option String
deriving Repr, DecidableEq

/-- The `orders(...)` arguments of `CUSTOMER_FRAGMENT` as a function of the
query variables. -/
def ordersFieldArguments (v : QueryVariables) : OrdersFieldArguments :=
  { sortKey := "PROCESSED_AT"
    reverse := true
    first := v.first
    last := v.last
    before := v.startCursor
    after := v.endCursor }

/-- Modelled from the spec: the external pagination helper renders the
next/previous navigation as a request to the same route whose query string
carries the received cursor and the navigation direction. -/
def navigationRequest (cursor : String) (direction : String) : Request :=
  { searchParams := [("cursor", cursor), ("direction", direction)] }

/-! ## Data model: collection template -/

/-- A name/value pair of a variant's selected options. -/
structure SelectedOption where
  name : String
  value : String
deriving Repr, DecidableEq

/-- One product variant node (only `selectedOptions` is requested). -/
structure ProductVariant where
  selectedOptions : List SelectedOption
deriving Repr, DecidableEq

/-- The `variants(first: 1)` connection of a product. -/
structure VariantsConnection where
  nodes : List ProductVariant
deriving Repr, DecidableEq

/-- A product's featured image. -/
structure ProductImage where
  id : String
  altText : Option String
  url : String
  width : Nat
  height : Nat
deriving Repr, DecidableEq

/-- A product's price range (min and max variant price). -/
structure ProductPriceRange where
  minVariantPrice : MoneyV2
  maxVariantPrice : MoneyV2
deriving Repr, DecidableEq

/-- One product node with the fields requested by `PRODUCT_ITEM_FRAGMENT`. -/
structure Product where
  id : String
  handle : String
  title : String
  featuredImage : Option ProductImage
  priceRange : ProductPriceRange
  variants : VariantsConnection
deriving Repr, DecidableEq

/-- The image-loading marker passed to the `Image` component. -/
inductive ImageLoading
  | eager
  | lazy
deriving Repr, DecidableEq

/-- Modelled from the spec: `useVariantUrl` (imported from `~/lib/variants`,
not part of the provided sources) derives a variant-specific URL from the
product handle and the selected options. -/
def useVariantUrl (handle : String) (selectedOptions : List SelectedOption) : String :=
  "/products/" ++ handle ++
    (selectedOptions.foldl
      (fun acc o => acc ++ (if acc = "" then "?" else "&") ++ o.name ++ "=" ++ o.value) "")

/-- What `ProductItem` renders for one product. -/
structure RenderedProductItem where
  url : String
  imageLoading : Option ImageLoading
  title : String
  minPrice : MoneyV2
deriving Repr, DecidableEq

/-- The `ProductItem` component.  It reads `product.variants.nodes[0]` with
no emptiness guard; on an empty variants list that access yields no value
and the following `selectedOptions` access fails, so rendering produces no
item (`none`).  The image (and hence its loading marker) is rendered only
when a featured image is present. -/
def renderProductItem (product : Product) (loading : Option ImageLoading) :
    Option RenderedProductItem :=
  match product.variants.nodes.head? with
  | none => none
  | some variant =>
    some
      { url := useVariantUrl product.handle variant.selectedOptions
        imageLoading := if product.featuredImage.isSome then loading else none
        title := product.title
        minPrice := product.priceRange.minVariantPrice }

/-- One instantiation of `ProductItem` by the collection grid: the product
node and the loading prop passed to it. -/
structure GridItemCall where
  product : Product
  loading : Option ImageLoading
deriving Repr, DecidableEq

/-- The loading prop `CollectionTemplate` passes at a given grid index:
`index < 8 ? 'eager' : undefined`. -/
def gridItemLoading (index : Nat) : Option ImageLoading :=
  if index < 8 then some .eager else none

/-- The grid rendered by `CollectionTemplate`: each product node is passed
to `ProductItem` together with the loading marker for its index. -/
def collectionGridCalls (products : List Product) : List GridItemCall :=
  products.enum.map (fun pi => { product := pi.2, loading := gridItemLoading pi.1 })

/-! ## Theorems -/

/-- C1: for every request to the orders route whose session lacks a customer
access token (no stored token, or a stored token object without an
`accessToken` field), the loader returns a redirect to the localized
`/account/login` path and issues no outbound query. -/
theorem loader_no_token_redirects (r : Request) (ctx : LoaderContext)
    (h : ctx.session.customerAccessToken = none ∨
      ∃ t, ctx.session.customerAccessToken = some t ∧ t.accessToken = none) :
    loader r ctx = (.redirect (localizePath "/account/login" ctx.i18n), []) := by
  have hp : tokenPresent ctx.session = none := by
    rcases h with h | ⟨t, ht, ha⟩
    · simp [tokenPresent, h]
    · simp [tokenPresent, ht, ha]
  simp [loader, hp]

theorem loader_no_token_redirects_witness :
    loader { searchParams := [] }
      { session := { customerAccessToken := none }
        i18n := { locale := "en" }
        sfI18n := { country := "US", language := "EN" }
        queryOutcome := .ok none } =
      (.redirect "/en/account/login", []) := by
  simpa [localizePath] using
    loader_no_token_redirects { searchParams := [] }
      { session := { customerAccessToken := none }
        i18n := { locale := "en" }
        sfI18n := { country := "US", language := "EN" }
        queryOutcome := .ok none } (Or.inl rfl)

/-- C2: with a valid token, a thrown `Error` instance yields a 400 JSON
response whose body carries that error's message, and a thrown non-`Error`
value yields a 400 JSON response carrying the value unchanged. -/
theorem loader_thrown_maps_to_400 (r : Request) (ctx : LoaderContext)
    (a : String) (h : tokenPresent ctx.session = some a) :
    (∀ msg, ctx.queryOutcome = .thrown (.errorVal msg) →
      (loader r ctx).1 = .json (.errMsg msg) 400) ∧
    (∀ v, ctx.queryOutcome = .thrown (.nonError v) →
      (loader r ctx).1 = .json (.errVal v) 400) := by
  constructor
  · intro msg hq
    simp [loader, h, hq, tryBody, catchHandler]
  · intro v hq
    simp [loader, h, hq, tryBody, catchHandler]

theorem loader_thrown_maps_to_400_witness :
    (loader { searchParams := [] }
      { session := { customerAccessToken := some { accessToken := some "tok" } }
        i18n := { locale := "" }
        sfI18n := { country := "US", language := "EN" }
        queryOutcome := .thrown (.errorVal "boom") }).1 =
      .json (.errMsg "boom") 400 :=
  (loader_thrown_maps_to_400 { searchParams := [] }
    { session := { customerAccessToken := some { accessToken := some "tok" } }
      i18n := { locale := "" }
      sfI18n := { country := "US", language := "EN" }
      queryOutcome := .thrown (.errorVal "boom") } "tok" (by decide)).1
    "boom" rfl

/-- C3: with a valid token, a query that succeeds but returns no customer is
escalated through the generic catch path: the loader returns a 400 JSON
response carrying the message `Customer not found`. -/
theorem loader_missing_customer_400 (r : Request) (ctx : LoaderContext)
    (a : String) (h : tokenPresent ctx.session = some a)
    (hq : ctx.queryOutcome = .ok none) :
    (loader r ctx).1 = .json (.errMsg "Customer not found") 400 := by
  simp [loader, h, hq, tryBody, catchHandler]

theorem loader_missing_customer_400_witness :
    (loader { searchParams := [] }
      { session := { customerAccessToken := some { accessToken := some "tok" } }
        i18n := { locale := "" }
        sfI18n := { country := "US", language := "EN" }
        queryOutcome := .ok none }).1 =
      .json (.errMsg "Customer not found") 400 :=
  loader_missing_customer_400 { searchParams := [] }
    { session := { customerAccessToken := some { accessToken := some "tok" } }
      i18n := { locale := "" }
      sfI18n := { country := "US", language := "EN" }
      queryOutcome := .ok none } "tok" (by decide) rfl

/-- C4: with a valid token the loader issues exactly one outbound query: the
customer-orders document with cache bypassed, whose variables are the
session's access token, the locale's country and language, and the
pagination variables built from the request's query string at page size 20
(so the page-size variable it carries is 20). -/
theorem loader_valid_token_single_query (r : Request) (ctx : LoaderContext)
    (a : String) (h : tokenPresent ctx.session = some a) :
    (loader r ctx).2 =
      [{ document := .customerOrders
         vars := buildVariables a ctx.sfI18n (getPaginationVariables r 20)
         cacheNone := true }] ∧
    ((getPaginationVariables r 20).first = some 20 ∨
      (getPaginationVariables r 20).last = some 20) := by
  constructor
  · cases htb : tryBody ctx.queryOutcome <;> simp [loader, h, htb]
  · by_cases hd : getParam r "direction" = some "previous" <;>
      simp [getPaginationVariables, hd]

theorem loader_valid_token_single_query_witness :
    (loader { searchParams := [("cursor", "abc")] }
      { session := { customerAccessToken := some { accessToken := some "tok" } }
        i18n := { locale := "" }
        sfI18n := { country := "US", language := "EN" }
        queryOutcome := .ok none }).2 =
      [{ document := .customerOrders
         vars :=
           { customerAccessToken := "tok", country := "US", language := "EN"
             first := some 20, last := none
             startCursor := none, endCursor := some "abc" }
         cacheNone := true }] := by
  have h := (loader_valid_token_single_query { searchParams := [("cursor", "abc")] }
    { session := { customerAccessToken := some { accessToken := some "tok" } }
      i18n := { locale := "" }
      sfI18n := { country := "US", language := "EN" }
      queryOutcome := .ok none } "tok" (by decide)).1
  simpa [buildVariables, getPaginationVariables, getParam] using h

/-- C5: the claim states that the orders fragment requests
`hasPreviousPage`, `hasNextPage`, `startCursor` and `endCursor` in
`pageInfo`; the source's selection set never requests `startCursor` and
instead requests `hasNextPage` twice. -/
theorem customer_fragment_pageInfo_fields :
    "startCursor" ∉ customerFragmentPageInfoFields ∧
    customerFragmentPageInfoFields.count "hasNextPage" = 2 ∧
    "hasPreviousPage" ∈ customerFragmentPageInfoFields ∧
    "endCursor" ∈ customerFragmentPageInfoFields := by decide

/-- C6: the collection grid passes the eager image-loading marker to the
items at indices 0 through 7 and no loading marker (hence lazy rendering) to
the items at index 8 and beyond. -/
theorem collection_grid_eager_first_eight (products : List Product) (i : Nat) :
    (collectionGridCalls products)[i]? =
      products[i]?.map
        (fun p =>
          { product := p
            loading := if i < 8 then some ImageLoading.eager else none }) := by
  cases hp : products[i]? <;>
    simp [collectionGridCalls, List.getElem?_enum, gridItemLoading, hp]

/-- C7: a customer whose orders connection has zero nodes makes the orders
view render the empty-state fallback and not the orders table. -/
theorem orders_view_empty_state (customer : Customer)
    (h : customer.orders.nodes = []) :
    ordersViewBody customer = .emptyState ∧
      ∀ conn, ordersViewBody customer ≠ .table conn := by
  have hl : customer.orders.nodes.length = 0 := by rw [h]; rfl
  refine ⟨?_, ?_⟩ <;> simp [ordersViewBody, hl]

theorem orders_view_empty_state_witness :
    ordersViewBody
      { numberOfOrders := 0
        orders :=
          { nodes := []
            pageInfo :=
              { hasPreviousPage := false, hasNextPage := false
                endCursor := none } } } = .emptyState :=
  (orders_view_empty_state
    { numberOfOrders := 0
      orders :=
        { nodes := []
          pageInfo :=
            { hasPreviousPage := false, hasNextPage := false
              endCursor := none } } } rfl).1

/-- C8: a cursor string received in a response's page-info is echoed back
unchanged on the next or previous navigation: every query call the loader
issues for such a navigation carries the cursor verbatim in its variables,
and the fragment forwards those variables verbatim into the `after`/`before`
arguments of the orders field. -/
theorem cursor_round_trip (c : String) (ctx : LoaderContext)
    (a : String) (h : tokenPresent ctx.session = some a) :
    (∀ call ∈ (loader (navigationRequest c "next") ctx).2,
      call.vars.endCursor = some c ∧
        (ordersFieldArguments call.vars).after = some c) ∧
    (∀ call ∈ (loader (navigationRequest c "previous") ctx).2,
      call.vars.startCursor = some c ∧
        (ordersFieldArguments call.vars).before = some c) := by
  constructor
  · intro call hc
    cases htb : tryBody ctx.queryOutcome <;>
      simp [loader, h, htb] at hc <;>
      simp [hc, buildVariables, getPaginationVariables, getParam,
        navigationRequest, ordersFieldArguments]
  · intro call hc
    cases htb : tryBody ctx.queryOutcome <;>
      simp [loader, h, htb] at hc <;>
      simp [hc, buildVariables, getPaginationVariables, getParam,
        navigationRequest, ordersFieldArguments]

theorem cursor_round_trip_witness :
    ({ document := .customerOrders
       vars :=
         { customerAccessToken := "tok", country := "US", language := "EN"
           first := some 20, last := none
           startCursor := none, endCursor := some "opaque123" }
       cacheNone := true } : QueryCall).vars.endCursor = some "opaque123" ∧
    (ordersFieldArguments
      ({ document := .customerOrders
         vars :=
           { customerAccessToken := "tok", country := "US", language := "EN"
             first := some 20, last := none
             startCursor := none, endCursor := some "opaque123" }
         cacheNone := true } : QueryCall).vars).after = some "opaque123" :=
  (cursor_round_trip "opaque123"
    { session := { customerAccessToken := some { accessToken := some "tok" } }
      i18n := { locale := "" }
      sfI18n := { country := "US", language := "EN" }
      queryOutcome := .ok none } "tok" (by decide)).1
    { document := .customerOrders
      vars :=
        { customerAccessToken := "tok", country := "US", language := "EN"
          first := some 20, last := none
          startCursor := none, endCursor := some "opaque123" }
      cacheNone := true } (by decide)

/-- C9: every order row contains two links to an order-detail route for the
same logical order: one whose path uses the raw order identifier and one
whose path uses the base64-encoding of that identifier. -/
theorem order_item_dual_links (order : Order) :
    (∃ l ∈ orderItemLinks order, l.href = "/account/orders/" ++ order.id) ∧
    (∃ l ∈ orderItemLinks order, l.href = "/account/orders/" ++ btoa order.id) := by
  refine ⟨⟨(orderItemLinks order).head (by simp [orderItemLinks]), ?_, rfl⟩,
    ⟨{ href := "/account/orders/" ++ btoa order.id, label := "View Order →" },
      ?_, rfl⟩⟩ <;> simp [orderItemLinks]

/-- C10: rendering a product item reads the first variant node with no
emptiness guard: it is well-defined exactly when the product has at least
one variant node, and on an empty variants list the rendering fails
(produces no item). -/
theorem product_item_requires_variant (product : Product)
    (loading : Option ImageLoading) :
    (product.variants.nodes = [] →
      renderProductItem product loading = none) ∧
    (product.variants.nodes ≠ [] →
      (renderProductItem product loading).isSome = true) := by
  constructor
  · intro h
    simp [renderProductItem, h]
  · intro h
    cases hn : product.variants.nodes with
    | nil => exact absurd hn h
    | cons v rest => simp [renderProductItem, hn]

theorem product_item_requires_variant_witness :
    renderProductItem
      { id := "p0", handle := "h0", title := "t0", featuredImage := none
        priceRange :=
          { minVariantPrice := { amount := "1.0", currencyCode := "USD" }
            maxVariantPrice := { amount := "1.0", currencyCode := "USD" } }
        variants := { nodes := [] } } none = none :=
  (product_item_requires_variant
    { id := "p0", handle := "h0", title := "t0", featuredImage := none
      priceRange :=
        { minVariantPrice := { amount := "1.0", currencyCode := "USD" }
          maxVariantPrice := { amount := "1.0", currencyCode := "USD" } }
      variants := { nodes := [] } } none).1 rfl
